import Mathlib

/-!
A shallow embedding of the Anthropic-to-Gemini API adapter worker
(`src/worker.ts`, whose full text is embedded in `src/README.md` of the
repository, with the type declarations in `src/types.ts`).

Conventions of the embedding:

* TypeScript optional fields (`field?: T`, and fields that may be `null`)
  become `Option`; a JavaScript truthiness test on such a field is spelled
  out (`none`/`""`/`0` are falsy, objects and arrays are truthy).
* JavaScript numbers that the worker only passes through are modelled as
  `Nat` (token counts, indices) or `Rat` (sampling parameters); the worker
  performs no arithmetic on them.
* The host primitives `JSON.parse` and `JSON.stringify` are modelled over a
  `Json` value type.  A string destined for `JSON.parse` is abstracted as a
  `JsJsonStr`: its raw text together with the parse outcome (`some` decoded
  value, or `none` when `JSON.parse` throws).
* A thrown JavaScript exception inside a `try` block is modelled with
  `Except String`; the surrounding `catch` turns it into a failure
  `ConversionResult`, exactly as in the source.
* The SSE read loop of `processGeminiStream` is modelled on the granularity
  the worker itself processes: each `reader.read()` batch is the list of
  complete `data:` lines it contributes after buffer splitting, and each
  line is abstracted by the case distinction the code makes on it
  (non-`data:` line / `[DONE]` terminator / malformed JSON / parsed chunk).
  The events written to the outbound writer are returned as a list.
-/

/-- JSON values (the result of the host `JSON.parse` and the input of
`JSON.stringify`).  Numbers are modelled as integers: the worker never
computes with decoded JSON numbers. -/
inductive Json where
  | null
  | bool (b : Bool)
  | num (n : Int)
  | str (s : String)
  | arr (elems : List Json)
  | obj (fields : List (String × Json))

/-- JSON string quoting for `JSON.stringify` (backslash and double quote are
escaped; control-character escaping is elided, no translated value depends
on it). -/
def Json.escapeChar (c : Char) : String :=
  if c = '\\' then "\\\\" else if c = '"' then "\\\"" else String.singleton c

/-- Quote a string as a JSON string literal. -/
def Json.quote (s : String) : String :=
  "\"" ++ String.join (s.data.map Json.escapeChar) ++ "\""

mutual

/-- Model of the host `JSON.stringify` on `Json` values. -/
def Json.stringify : Json → String
  | .null => "null"
  | .bool b => if b then "true" else "false"
  | .num n => toString n
  | .str s => Json.quote s
  | .arr es => "[" ++ Json.stringifyArr es ++ "]"
  | .obj fs => "\x7b" ++ Json.stringifyObj fs ++ "\x7d"

/-- Comma-separated serialization of a JSON array's elements. -/
def Json.stringifyArr : List Json → String
  | [] => ""
  | [j] => Json.stringify j
  | j :: rest => Json.stringify j ++ "," ++ Json.stringifyArr rest

/-- Comma-separated serialization of a JSON object's fields. -/
def Json.stringifyObj : List (String × Json) → String
  | [] => ""
  | [(k, v)] => Json.quote k ++ ":" ++ Json.stringify v
  | (k, v) :: rest => Json.quote k ++ ":" ++ Json.stringify v ++ "," ++ Json.stringifyObj rest

end

/-- JavaScript `String.prototype.toLowerCase`, modelled characterwise. -/
def jsToLower (s : String) : String := ⟨s.data.map Char.toLower⟩

/-- Substring containment on character lists (`String.prototype.includes`). -/
def strContains : List Char → List Char → Bool
  | [], sub => sub.isEmpty
  | c :: rest, sub => sub.isPrefixOf (c :: rest) || strContains rest sub

/-- JavaScript `String.prototype.includes`. -/
def jsIncludes (s sub : String) : Bool := strContains s.data sub.data

/-- ASCII whitespace as trimmed by JavaScript `String.prototype.trim`
(further Unicode space characters that `trim` also removes never appear in
the claims and are not modelled). -/
def jsIsSpace (c : Char) : Bool :=
  c == ' ' || c == '\t' || c == '\n' || c == '\r' || c == '\x0b' || c == '\x0c'

/-- JavaScript `String.prototype.trim`. -/
def jsTrim (s : String) : String :=
  ⟨((s.data.dropWhile jsIsSpace).reverse.dropWhile jsIsSpace).reverse⟩

/-- JavaScript truthiness of an optional string field (`undefined` and the
empty string are falsy). -/
def strTruthy : Option String → Bool
  | some s => s != ""
  | none => false

/-- JavaScript truthiness of a JSON value. -/
def jsonTruthy : Json → Bool
  | .null => false
  | .bool b => b
  | .num n => n != 0
  | .str s => s != ""
  | .arr _ => true
  | .obj _ => true

/-- JavaScript truthiness of an optional JSON-valued field. -/
def optJsonTruthy : Option Json → Bool
  | some j => jsonTruthy j
  | none => false

/-- A JavaScript string as fed to `JSON.parse`: its raw text and the parse
outcome (`some` decoded value, or `none` when `JSON.parse` throws). -/
structure JsJsonStr where
  raw : String
  parsed : Option Json

/-- Result of `JSON.parse(arguments || '\x7b\x7d')` from
`convertGeminiToAnthropic`: a falsy (empty) arguments string is replaced by
the literal `'\x7b\x7d'`, which decodes to the empty object; otherwise
`JSON.parse` runs on the arguments string and throws on invalid JSON. -/
def jsonParseArgs (arguments : JsJsonStr) : Except String Json :=
  if arguments.raw == "" then Except.ok (Json.obj [])
  else
    match arguments.parsed with
    | some j => Except.ok j
    | none => Except.error "Unexpected token in JSON"

/-- `ConversionResult<T>` from `src/types.ts`. -/
structure ConversionResult (T : Type) where
  success : Bool
  data : Option T := none
  error : Option String := none

/-- The `\x7b success: true, data \x7d` shape the worker returns. -/
def mkSuccess {T : Type} (d : T) : ConversionResult T :=
  { success := true, data := some d }

/-- The `\x7b success: false, error \x7d` shape the worker returns. -/
def mkFailure {T : Type} (e : String) : ConversionResult T :=
  { success := false, error := some e }

/-- `content` of a `tool_result` block: `string | AnthropicContent[]` in
`src/types.ts`.  The worker only distinguishes the string case from the
rest, `JSON.stringify`ing the latter, so the non-string case is modelled by
its JSON value. -/
inductive ToolResultContent where
  | str (s : String)
  | other (j : Json)

/-- `AnthropicContent` from `src/types.ts` (one content block).  The `type`
tag is a string, as in the source, since the worker compares it with string
literals and warns on anything unrecognized.  The `source` field of image
blocks is never read by the worker and is not modelled. -/
structure AnthropicContent where
  type : String
  text : Option String := none
  tool_use_id : Option String := none
  name : Option String := none
  input : Option Json := none
  content : Option ToolResultContent := none
  is_error : Option Bool := none

/-- `string | AnthropicContent[]` message content. -/
inductive AnthropicMessageContent where
  | str (s : String)
  | blocks (items : List AnthropicContent)

/-- `AnthropicMessage` from `src/types.ts`. -/
structure AnthropicMessage where
  role : String
  content : AnthropicMessageContent

/-- The runtime state of the `messages` field as `validateAnthropicRequest`
distinguishes it: absent, present but not an array, or an array. -/
inductive MessagesField where
  | missing
  | notArray
  | array (msgs : List AnthropicMessage)

/-- `tool_choice` of a request: `'auto' | 'any' | \x7b type: 'tool'; name \x7d`. -/
inductive AnthropicToolChoice where
  | auto
  | any
  | tool (name : String)

/-- The JSON-schema-shaped `input_schema` of a tool (passed through
unchanged by the worker). -/
structure ToolSchema where
  type : String
  properties : Json
  required : Option (List String) := none

/-- `AnthropicTool` from `src/types.ts`. -/
structure AnthropicTool where
  name : String
  description : String
  input_schema : ToolSchema

/-- `AnthropicRequest` from `src/types.ts`.  `model` is `Option String` so
that an absent model (which `validateAnthropicRequest` rejects) is
representable; `messages` is a `MessagesField` for the same reason. -/
structure AnthropicRequest where
  model : Option String
  messages : MessagesField
  max_tokens : Option Nat := none
  temperature : Option Rat := none
  top_p : Option Rat := none
  system : Option String := none
  tools : Option (List AnthropicTool) := none
  tool_choice : Option AnthropicToolChoice := none
  stop_sequences : Option (List String) := none
  stream : Option Bool := none

/-- `GeminiMessage` from `src/types.ts`. -/
structure GeminiMessage where
  role : String
  content : String

/-- The `function` part of a `GeminiTool`. -/
structure GeminiToolFunction where
  name : String
  description : String
  parameters : ToolSchema

/-- `GeminiTool` from `src/types.ts`. -/
structure GeminiTool where
  type : String
  function : GeminiToolFunction

/-- `tool_choice` of a target request:
`'none' | 'auto' | \x7b type: 'function'; function: \x7b name \x7d \x7d`. -/
inductive GeminiToolChoice where
  | noTool
  | auto
  | function (name : String)

/-- `GeminiRequest` from `src/types.ts`.  `max_tokens` and `temperature` are
always set by `convertAnthropicToGemini`, so they are not optional here. -/
structure GeminiRequest where
  model : String
  messages : List GeminiMessage
  max_tokens : Nat
  temperature : Rat
  top_p : Option Rat := none
  tools : Option (List GeminiTool) := none
  tool_choice : Option GeminiToolChoice := none
  stop : Option (List String) := none
  stream : Option Bool := none

/-- The `MODEL_MAPPING` table of `src/worker.ts`, as an association list.
Every mapped value is a non-empty string, so the JS truthiness test
`if (MODEL_MAPPING[claudeModel])` coincides with key presence. -/
def MODEL_MAPPING : List (String × String) :=
  [("claude-3-sonnet", "google/gemini-2.5-flash"),
   ("claude-3-sonnet-20240229", "google/gemini-2.5-flash"),
   ("claude-3.5-sonnet", "google/gemini-2.5-flash"),
   ("claude-3.5-sonnet-20240620", "google/gemini-2.5-flash"),
   ("claude-3.5-sonnet-20241022", "google/gemini-2.5-flash"),
   ("claude-3-opus", "google/gemini-2.5-pro"),
   ("claude-3-opus-20240229", "google/gemini-2.5-pro"),
   ("claude-3-haiku", "google/gemini-2.5-flash-lite"),
   ("claude-3-haiku-20240307", "google/gemini-2.5-flash-lite"),
   ("claude-4-opus", "google/gemini-2.5-pro"),
   ("claude-4-sonnet", "google/gemini-2.5-flash"),
   ("claude-4-haiku", "google/gemini-2.5-flash-lite")]

/-- `getGeminiModel` from `src/worker.ts`: direct table lookup, then
pattern-based fallback on the lower-cased identifier, then the default. -/
def getGeminiModel (claudeModel : String) : String :=
  match MODEL_MAPPING.lookup claudeModel with
  | some m => m
  | none =>
    let lowerModel := jsToLower claudeModel
    if jsIncludes lowerModel "opus" then "google/gemini-2.5-pro"
    else if jsIncludes lowerModel "sonnet" then "google/gemini-2.5-flash"
    else if jsIncludes lowerModel "haiku" then "google/gemini-2.5-flash-lite"
    else "google/gemini-2.5-flash"

/-- `validateAnthropicRequest` from `src/worker.ts`.  The three checks run
in order and short-circuit; the success case is the bare
`\x7b success: true \x7d` (no `data`). -/
def validateAnthropicRequest (request : AnthropicRequest) : ConversionResult Unit :=
  if !strTruthy request.model then
    mkFailure "Missing required field: model"
  else
    match request.messages with
    | MessagesField.missing => mkFailure "Missing or invalid messages field"
    | MessagesField.notArray => mkFailure "Missing or invalid messages field"
    | MessagesField.array msgs =>
      if msgs.length = 0 then mkFailure "Messages array cannot be empty"
      else { success := true }

/-- The text a single content block contributes to the flattened message
(the `textParts.push` cases of `convertAnthropicMessage`); `none` when the
block contributes nothing (unsupported types only produce a console
warning). -/
def blockText (contentItem : AnthropicContent) : Option String :=
  if contentItem.type == "text" && strTruthy contentItem.text then
    some (contentItem.text.getD "")
  else if contentItem.type == "tool_use" && strTruthy contentItem.name
      && optJsonTruthy contentItem.input then
    some ("[Tool Call: " ++ contentItem.name.getD "" ++ "("
      ++ Json.stringify (contentItem.input.getD Json.null) ++ ")]")
  else if contentItem.type == "tool_result" then
    some ("[Tool Result: "
      ++ (match contentItem.content with
          | some (ToolResultContent.str s) => s
          | some (ToolResultContent.other j) => Json.stringify j
          | none => "undefined") ++ "]")
  else
    none

/-- The `content` local of `convertAnthropicMessage`: a plain string is
taken as is; a block sequence contributes `blockText` per block, joined
with newlines. -/
def flattenAnthropicContent : AnthropicMessageContent → String
  | AnthropicMessageContent.str s => s
  | AnthropicMessageContent.blocks items =>
    String.intercalate "\n" (items.filterMap blockText)

/-- `convertAnthropicMessage` from `src/worker.ts`: flatten the content,
drop the message if the flattened content trims to empty, and map any
non-`assistant` role to `user`.  The `index` argument is only used for
console warnings in the source. -/
def convertAnthropicMessage (msg : AnthropicMessage) (index : Nat) : Option GeminiMessage :=
  let _ := index
  let content := flattenAnthropicContent msg.content
  if jsTrim content == "" then none
  else some { role := if msg.role == "assistant" then "assistant" else "user"
              content := content }

/-- `convertAnthropicToolsToGemini` from `src/worker.ts`. -/
def convertAnthropicToolsToGemini (tools : List AnthropicTool) : List GeminiTool :=
  tools.map fun tool =>
    { type := "function"
      function := { name := tool.name
                    description := tool.description
                    parameters := tool.input_schema } }

/-- `convertAnthropicToolChoice` from `src/worker.ts`.  An absent choice
maps to `none` (`undefined`); a `tool` choice with a falsy (empty) name
falls through to the final `'auto'` default. -/
def convertAnthropicToolChoice (toolChoice : Option AnthropicToolChoice) : Option GeminiToolChoice :=
  match toolChoice with
  | none => none
  | some AnthropicToolChoice.auto => some GeminiToolChoice.auto
  | some AnthropicToolChoice.any => some GeminiToolChoice.auto
  | some (AnthropicToolChoice.tool name) =>
    if name == "" then some GeminiToolChoice.auto
    else some (GeminiToolChoice.function name)

/-- The tool block at the end of `convertAnthropicToGemini`: attach tools
when at least one is present and survives conversion, and then attach the
converted `tool_choice` only when a choice is present. -/
def addTools (req : GeminiRequest) (tools : Option (List AnthropicTool))
    (tool_choice : Option AnthropicToolChoice) : GeminiRequest :=
  match tools with
  | none => req
  | some ts =>
    if ts.length > 0 then
      let convertedTools := convertAnthropicToolsToGemini ts
      if convertedTools.length > 0 then
        let req := { req with tools := some convertedTools }
        if tool_choice.isSome then
          { req with tool_choice := convertAnthropicToolChoice tool_choice }
        else req
      else req
    else req

/-- `convertAnthropicToGemini` from `src/worker.ts`.  The whole body runs in
a `try`; with a present `model` and an array `messages` nothing in it
throws, while an absent `model` (`.toLowerCase` on `undefined`) or a
missing/non-array `messages` (`.forEach`) throws a `TypeError` that the
`catch` converts into a failure result. -/
def convertAnthropicToGemini (anthropicRequest : AnthropicRequest) : ConversionResult GeminiRequest :=
  match anthropicRequest.model, anthropicRequest.messages with
  | none, _ =>
    mkFailure "Request conversion failed: Cannot read properties of undefined"
  | some _, MessagesField.missing =>
    mkFailure "Request conversion failed: Cannot read properties of undefined"
  | some _, MessagesField.notArray =>
    mkFailure "Request conversion failed: messages.forEach is not a function"
  | some model, MessagesField.array messages =>
    let geminiModel := getGeminiModel model
    let systemMessages : List GeminiMessage :=
      match anthropicRequest.system with
      | some s => if s == "" then [] else [{ role := "system", content := s }]
      | none => []
    let geminiMessages :=
      systemMessages ++ messages.enum.filterMap (fun p => convertAnthropicMessage p.2 p.1)
    let geminiRequest : GeminiRequest :=
      { model := geminiModel
        messages := geminiMessages
        max_tokens :=
          match anthropicRequest.max_tokens with
          | some n => if n = 0 then 1024 else n
          | none => 1024
        temperature :=
          match anthropicRequest.temperature with
          | some t => t
          | none => 7 / 10
        top_p := anthropicRequest.top_p
        stop :=
          match anthropicRequest.stop_sequences with
          | some l => if l.length > 0 then some l else none
          | none => none }
    mkSuccess (addTools geminiRequest anthropicRequest.tools anthropicRequest.tool_choice)

/-- The `function` part of a `GeminiToolCall`; `arguments` is a
string-encoded JSON object, modelled with its parse outcome attached. -/
structure GeminiFunctionCall where
  name : String
  arguments : JsJsonStr

/-- `GeminiToolCall` from `src/types.ts`. -/
structure GeminiToolCall where
  id : String
  type : String
  function : GeminiFunctionCall

/-- The `message` of a `GeminiChoice` (`content` may be `null`). -/
structure GeminiRespMessage where
  role : String
  content : Option String
  tool_calls : Option (List GeminiToolCall) := none

/-- The `delta` of a streaming `GeminiChoice`. -/
structure GeminiDelta where
  role : Option String := none
  content : Option String := none
  tool_calls : Option (List GeminiToolCall) := none

/-- `GeminiChoice` from `src/types.ts`.  `finish_reason` is an open string:
the source switches on it with a `default` branch. -/
structure GeminiChoice where
  index : Nat
  message : Option GeminiRespMessage := none
  delta : Option GeminiDelta := none
  finish_reason : Option String := none

/-- `usage` of a `GeminiResponse`. -/
structure GeminiUsage where
  prompt_tokens : Nat
  completion_tokens : Nat
  total_tokens : Nat

/-- The `error` object of a `GeminiResponse`. -/
structure GeminiError where
  type : String
  message : String

/-- `GeminiResponse` from `src/types.ts`. -/
structure GeminiResponse where
  id : String
  object : String
  created : Nat
  model : String
  choices : List GeminiChoice
  usage : Option GeminiUsage := none
  error : Option GeminiError := none

/-- `GeminiStreamChunk` from `src/types.ts`. -/
structure GeminiStreamChunk where
  id : String
  object : String
  created : Nat
  model : String
  choices : List GeminiChoice

/-- The `stop_reason` vocabulary of an `AnthropicResponse`. -/
inductive AnthropicStopReason where
  | end_turn
  | max_tokens
  | stop_sequence
  | tool_use

/-- `usage` of an `AnthropicResponse`. -/
structure AnthropicUsage where
  input_tokens : Nat
  output_tokens : Nat

/-- `AnthropicResponse` from `src/types.ts`.  `model` mirrors the request's
`model` field verbatim, hence `Option String`.  The generated `id`
(`Date.now()` plus a random suffix) is host nondeterminism; it is modelled
by a fixed placeholder, and no claim mentions it. -/
structure AnthropicResponse where
  id : String
  type : String
  role : String
  content : List AnthropicContent
  model : Option String
  stop_reason : AnthropicStopReason
  stop_sequence : Option String
  usage : AnthropicUsage

/-- The `tool_calls.forEach` loop of `convertGeminiToAnthropic`: one
`tool_use` block per call, with `input = JSON.parse(arguments || '\x7b\x7d')`.
A `JSON.parse` throw aborts the loop and propagates (`Except.error`). -/
def convertToolCalls : List GeminiToolCall → Except String (List AnthropicContent)
  | [] => Except.ok []
  | toolCall :: rest =>
    match jsonParseArgs toolCall.function.arguments with
    | Except.error e => Except.error e
    | Except.ok input =>
      match convertToolCalls rest with
      | Except.error e => Except.error e
      | Except.ok blocks =>
        Except.ok ({ type := "tool_use"
                     tool_use_id := some toolCall.id
                     name := some toolCall.function.name
                     input := some input } :: blocks)

/-- The finish-reason `switch` of `convertGeminiToAnthropic`: applied only
when `finish_reason` is truthy, otherwise the provisional stop reason
(set to `tool_use` by tool calls, `end_turn` initially) stands. -/
def mapFinishReason (finish_reason : Option String) (provisional : AnthropicStopReason) :
    AnthropicStopReason :=
  match finish_reason with
  | none => provisional
  | some r =>
    if r == "" then provisional
    else if r == "stop" then AnthropicStopReason.end_turn
    else if r == "length" then AnthropicStopReason.max_tokens
    else if r == "tool_calls" then AnthropicStopReason.tool_use
    else if r == "content_filter" then AnthropicStopReason.stop_sequence
    else AnthropicStopReason.end_turn

/-- The content-building middle of `convertGeminiToAnthropic` (between the
first-choice lookup and the response assembly): tool-call blocks first with
a provisional `tool_use` stop reason, then a text block for truthy message
content, then the empty-text fallback, then the finish-reason mapping.  The
only throwing operation is `JSON.parse` inside `convertToolCalls`. -/
def extractChoiceContent (choice : GeminiChoice) :
    Except String (List AnthropicContent × AnthropicStopReason) :=
  let toolPart : Except String (List AnthropicContent × AnthropicStopReason) :=
    match choice.message with
    | none => Except.ok ([], AnthropicStopReason.end_turn)
    | some m =>
      match m.tool_calls with
      | some calls =>
        if calls.length > 0 then
          match convertToolCalls calls with
          | Except.error e => Except.error e
          | Except.ok blocks => Except.ok (blocks, AnthropicStopReason.tool_use)
        else Except.ok ([], AnthropicStopReason.end_turn)
      | none => Except.ok ([], AnthropicStopReason.end_turn)
  match toolPart with
  | Except.error e => Except.error e
  | Except.ok (blocks, provisional) =>
    let textBlocks : List AnthropicContent :=
      match choice.message with
      | some m =>
        match m.content with
        | some c => if c == "" then [] else [{ type := "text", text := some c }]
        | none => []
      | none => []
    let content := blocks ++ textBlocks
    let content :=
      if content.isEmpty then [{ type := "text", text := some "" }] else content
    Except.ok (content, mapFinishReason choice.finish_reason provisional)

/-- Fallback for falsy strings (the JS `||` on string fields). -/
def strOr (s fallback : String) : String := if s == "" then fallback else s

/-- `convertGeminiToAnthropic` from `src/worker.ts`.  An explicit backend
error object and a missing first choice return failure results directly;
a `JSON.parse` throw on tool-call arguments is caught by the function's
outer `catch` and becomes a failure result as well. -/
def convertGeminiToAnthropic (geminiResponse : GeminiResponse)
    (originalRequest : AnthropicRequest) : ConversionResult AnthropicResponse :=
  match geminiResponse.error with
  | some err => mkFailure (strOr err.message "Unknown error from Gemini API")
  | none =>
    match geminiResponse.choices.head? with
    | none => mkFailure "No response choices from Gemini API"
    | some choice =>
      match extractChoiceContent choice with
      | Except.error e => mkFailure ("Response conversion failed: " ++ e)
      | Except.ok (content, stopReason) =>
        mkSuccess
          { id := "msg_"
            type := "message"
            role := "assistant"
            content := content
            model := originalRequest.model
            stop_reason := stopReason
            stop_sequence := none
            usage :=
              { input_tokens :=
                  match geminiResponse.usage with
                  | some u => u.prompt_tokens
                  | none => 0
                output_tokens :=
                  match geminiResponse.usage with
                  | some u => u.completion_tokens
                  | none => 0 } }

/-- The `delta` of an `AnthropicStreamChunk` (`src/types.ts`). -/
structure AnthropicStreamDelta where
  type : String
  text : Option String := none
  partial_json : Option String := none

/-- `AnthropicStreamChunk` from `src/types.ts`, restricted to the fields the
worker ever populates (`type`, `index`, `delta`). -/
structure AnthropicStreamChunk where
  type : String
  index : Option Nat := none
  delta : Option AnthropicStreamDelta := none

/-- `convertGeminiStreamChunk` from `src/worker.ts`: from the first choice,
in priority order, a text delta, else the first tool-call fragment, else
`message_stop` on a truthy finish reason, else nothing.  An absent
`tool_calls` list and an empty one fail the `length > 0` test alike. -/
def convertGeminiStreamChunk (geminiChunk : GeminiStreamChunk)
    (originalRequest : AnthropicRequest) : Option AnthropicStreamChunk :=
  let _ := originalRequest
  match geminiChunk.choices.head? with
  | none => none
  | some choice =>
    let content :=
      match choice.delta with
      | some d => d.content.getD ""
      | none => ""
    if content != "" then
      some { type := "content_block_delta"
             index := some 0
             delta := some { type := "text_delta", text := some content } }
    else
      match (match choice.delta with
             | some d => d.tool_calls.getD []
             | none => []) with
      | toolCall :: _ =>
        some { type := "content_block_delta"
               index := some 0
               delta := some { type := "input_json_delta"
                               partial_json := some (strOr toolCall.function.arguments.raw "") } }
      | [] =>
        match choice.finish_reason with
        | some r => if r != "" then some { type := "message_stop" } else none
        | none => none

/-- One complete line of the backend SSE body, abstracted by the case
distinction `processGeminiStream` makes on it: a line without the
`data: ` marker, the literal `data: [DONE]` terminator, a `data:` line
whose payload makes `JSON.parse` throw, or a `data:` line whose payload
parses to a target stream chunk. -/
inductive StreamLine where
  | notData
  | done
  | malformed
  | chunk (c : GeminiStreamChunk)

/-- The inner `for (const line of lines)` loop of `processGeminiStream` over
one batch of complete lines: non-`data:` lines are ignored, the terminator
emits one `message_stop` and `break`s out of this (inner) loop, a JSON
parse failure is swallowed and the loop continues, and a parsed chunk
contributes its derived event, if any. -/
def processLines (originalRequest : AnthropicRequest) : List StreamLine → List AnthropicStreamChunk
  | [] => []
  | line :: rest =>
    match line with
    | StreamLine.notData => processLines originalRequest rest
    | StreamLine.done => [{ type := "message_stop" }]
    | StreamLine.malformed => processLines originalRequest rest
    | StreamLine.chunk c =>
      match convertGeminiStreamChunk c originalRequest with
      | some e => e :: processLines originalRequest rest
      | none => processLines originalRequest rest

/-- The `while (true)` read loop of `processGeminiStream` from
`src/worker.ts`: each `reader.read()` batch is split into complete lines
(the trailing incomplete fragment is held back by the buffer) and handed to
the inner line loop; the events written to the outbound stream are
returned in order.  The inner loop's `break` on the terminator does not
leave the read loop, so subsequent batches are still processed. -/
def processGeminiStream (originalRequest : AnthropicRequest)
    (reads : List (List StreamLine)) : List AnthropicStreamChunk :=
  (reads.map (processLines originalRequest)).flatten

/-- A minimal valid source request, shared by several concrete instances. -/
def fixtureRequest : AnthropicRequest :=
  { model := some "claude-3-sonnet"
    messages := MessagesField.array
      [{ role := "user", content := AnthropicMessageContent.str "Hello" }] }

/-- A backend response whose single tool call carries an arguments string on
which `JSON.parse` throws. -/
def c1BadArgsResponse : GeminiResponse :=
  { id := "resp_1"
    object := "chat.completion"
    created := 0
    model := "google/gemini-2.5-flash"
    choices := [{ index := 0
                  message := some { role := "assistant"
                                    content := none
                                    tool_calls := some [{ id := "call_1"
                                                          type := "function"
                                                          function := { name := "calculator"
                                                                        arguments := { raw := "not json"
                                                                                       parsed := none } } }] }
                  finish_reason := some "tool_calls" }] }

/-- The same response with a falsy (empty) arguments string, the one case the
code does degrade to the empty object via `arguments || '\x7b\x7d'`. -/
def c1EmptyArgsResponse : GeminiResponse :=
  { id := "resp_1"
    object := "chat.completion"
    created := 0
    model := "google/gemini-2.5-flash"
    choices := [{ index := 0
                  message := some { role := "assistant"
                                    content := none
                                    tool_calls := some [{ id := "call_1"
                                                          type := "function"
                                                          function := { name := "calculator"
                                                                        arguments := { raw := ""
                                                                                       parsed := none } } }] }
                  finish_reason := some "tool_calls" }] }

/-- The source request of the round-trip claim: one user message with plain
string text `T`, model `M`, all other fields as given. -/
def c2Request (M T : String) (mt : Option Nat) (tmp tp : Option Rat)
    (sys : Option String) (tls : Option (List AnthropicTool))
    (tc : Option AnthropicToolChoice) (ss : Option (List String)) (st : Option Bool) :
    AnthropicRequest :=
  { model := some M
    messages := MessagesField.array
      [{ role := "user", content := AnthropicMessageContent.str T }]
    max_tokens := mt, temperature := tmp, top_p := tp, system := sys
    tools := tls, tool_choice := tc, stop_sequences := ss, stream := st }

/-- A single-choice backend response whose message content is the string `T`,
with `finish_reason: 'stop'`, no tool calls, and arbitrary metadata. -/
def c2Response (T gid gobj : String) (gcr : Nat) (gmodel grole : String) (gidx : Nat)
    (gdelta : Option GeminiDelta) (gusage : Option GeminiUsage) : GeminiResponse :=
  { id := gid
    object := gobj
    created := gcr
    model := gmodel
    choices := [{ index := gidx
                  message := some { role := grole, content := some T, tool_calls := none }
                  delta := gdelta
                  finish_reason := some "stop" }]
    usage := gusage }

/-- A well-formed stream chunk whose first (only) choice's delta carries the
text `t`; every other field is arbitrary. -/
def c3ContentChunk (cid cob cmd : String) (ccr cix : Nat) (m : Option GeminiRespMessage)
    (dr : Option String) (t : String) (tcs : Option (List GeminiToolCall))
    (cfr : Option String) : GeminiStreamChunk :=
  { id := cid
    object := cob
    created := ccr
    model := cmd
    choices := [{ index := cix
                  message := m
                  delta := some { role := dr, content := some t, tool_calls := tcs }
                  finish_reason := cfr }] }

/-- A well-formed stream chunk whose first (only) choice carries only a
finish reason (no delta). -/
def c3FinishChunk (cid cob cmd : String) (ccr cix : Nat) (m : Option GeminiRespMessage)
    (fr : String) : GeminiStreamChunk :=
  { id := cid
    object := cob
    created := ccr
    model := cmd
    choices := [{ index := cix
                  message := m
                  delta := none
                  finish_reason := some fr }] }

/-- A well-formed content chunk arriving after the `[DONE]` terminator. -/
def c4LateChunk : GeminiStreamChunk :=
  { id := "chunk_2"
    object := "chat.completion.chunk"
    created := 0
    model := "google/gemini-2.5-flash"
    choices := [{ index := 0, delta := some { content := some "Hello" } }] }

/-- A two-message request whose second message flattens to empty (its only
block is an unsupported `image` block). -/
def c7Request : AnthropicRequest :=
  { model := some "claude-3-sonnet"
    messages := MessagesField.array
      [{ role := "user", content := AnthropicMessageContent.str "Hello!" },
       { role := "user", content := AnthropicMessageContent.blocks [{ type := "image" }] }] }

/-- A request with one tool and no `tool_choice`. -/
def c8Request : AnthropicRequest :=
  { model := some "claude-3-sonnet"
    messages := MessagesField.array
      [{ role := "user", content := AnthropicMessageContent.str "Hi" }]
    tools := some [{ name := "calculator"
                     description := "A calculator"
                     input_schema := { type := "object", properties := Json.obj [] } }] }

/-- The target request `convertAnthropicToGemini` produces for `c8Request`. -/
def c8Data : GeminiRequest :=
  { model := "google/gemini-2.5-flash"
    messages := [{ role := "user", content := "Hi" }]
    max_tokens := 1024
    temperature := 7 / 10
    tools := some (convertAnthropicToolsToGemini
      [{ name := "calculator"
         description := "A calculator"
         input_schema := { type := "object", properties := Json.obj [] } }]) }

/-- A request with an explicit `max_tokens: 0` and an explicit
`temperature: 0`. -/
def c10Request : AnthropicRequest :=
  { model := some "claude-3-haiku"
    messages := MessagesField.array
      [{ role := "user", content := AnthropicMessageContent.str "Hi" }]
    max_tokens := some 0
    temperature := some 0 }

/-- The target request `convertAnthropicToGemini` produces for `c10Request`. -/
def c10Data : GeminiRequest :=
  { model := "google/gemini-2.5-flash-lite"
    messages := [{ role := "user", content := "Hi" }]
    max_tokens := 1024
    temperature := 0 }

/-- The `c10Request` variant with no temperature at all. -/
def c10RequestB : AnthropicRequest :=
  { model := some "claude-3-haiku"
    messages := MessagesField.array
      [{ role := "user", content := AnthropicMessageContent.str "Hi" }]
    max_tokens := some 0 }

/-- The target request `convertAnthropicToGemini` produces for `c10RequestB`. -/
def c10DataB : GeminiRequest :=
  { model := "google/gemini-2.5-flash-lite"
    messages := [{ role := "user", content := "Hi" }]
    max_tokens := 1024
    temperature := 7 / 10 }

/-- A value looked up in an association list is one of its mapped values. -/
theorem lookup_mem_values (l : List (String × String)) (s v : String)
    (h : l.lookup s = some v) : v ∈ l.map Prod.snd := by
  induction l with
  | nil => simp [List.lookup] at h
  | cons p rest ih =>
    rw [List.lookup] at h
    by_cases hs : s == p.1
    · simp [hs] at h
      simp [h.symm]
    · simp [hs] at h
      simp [ih h]

/-- The tool-attachment step changes neither the scalar parameters nor the
messages, and leaves `tool_choice` untouched when no choice is present. -/
theorem addTools_fields (req : GeminiRequest) (tools : Option (List AnthropicTool))
    (tc : Option AnthropicToolChoice) :
    (addTools req tools tc).max_tokens = req.max_tokens ∧
    (addTools req tools tc).temperature = req.temperature ∧
    (addTools req tools tc).messages = req.messages ∧
    (tc = none → (addTools req tools tc).tool_choice = req.tool_choice) := by
  cases tools with
  | none => simp [addTools]
  | some ts =>
    by_cases h : ts.length > 0 <;>
      simp [addTools, h, convertAnthropicToolsToGemini] <;>
        rcases tc with _ | c <;> simp

/-- A malformed `data:` line contributes no event and does not change the
state of the line loop. -/
theorem processLines_malformed (req : AnthropicRequest) (pre suf : List StreamLine) :
    processLines req (pre ++ StreamLine.malformed :: suf) = processLines req (pre ++ suf) := by
  induction pre with
  | nil => simp [processLines]
  | cons line rest ih =>
    cases line with
    | notData => simp [processLines, ih]
    | done => simp [processLines]
    | malformed => simp [processLines, ih]
    | chunk c =>
      cases h : convertGeminiStreamChunk c req <;> simp [processLines, h, ih]

/-- C1: the spec requires that a tool call whose function-arguments string is
not valid JSON still yields a successful translation with an empty-object
input.  The code instead lets the `JSON.parse` throw escape to the outer
`catch`, turning the whole response translation into a failure result; only
a falsy (empty) arguments string degrades to the empty object. -/
theorem C1_malformed_tool_args_abort :
    (convertGeminiToAnthropic c1BadArgsResponse fixtureRequest).success = false ∧
    (convertGeminiToAnthropic c1BadArgsResponse fixtureRequest).data = none ∧
    (convertGeminiToAnthropic c1EmptyArgsResponse fixtureRequest).success = true ∧
    ((convertGeminiToAnthropic c1EmptyArgsResponse fixtureRequest).data.map (fun d => d.content))
      = some [{ type := "tool_use", tool_use_id := some "call_1"
                name := some "calculator", input := some (Json.obj []) }] :=
  ⟨rfl, rfl, rfl, rfl⟩

/-- C2: translating a single-user-plain-text request and translating back a
single-choice, text-only, `stop`-finished backend response yields a success
whose sole content block is the same text, stop reason `end_turn`, and the
original (unmapped) model identifier. -/
theorem C2_plain_text_round_trip (M T : String) (mt : Option Nat) (tmp tp : Option Rat)
    (sys : Option String) (tls : Option (List AnthropicTool))
    (tc : Option AnthropicToolChoice) (ss : Option (List String)) (st : Option Bool)
    (gid gobj : String) (gcr : Nat) (gmodel grole : String) (gidx : Nat)
    (gdelta : Option GeminiDelta) (gusage : Option GeminiUsage)
    (hM : M ≠ "")
    (hconv : (convertAnthropicToGemini (c2Request M T mt tmp tp sys tls tc ss st)).success = true) :
    (convertGeminiToAnthropic (c2Response T gid gobj gcr gmodel grole gidx gdelta gusage)
        (c2Request M T mt tmp tp sys tls tc ss st)).success = true ∧
    ((convertGeminiToAnthropic (c2Response T gid gobj gcr gmodel grole gidx gdelta gusage)
        (c2Request M T mt tmp tp sys tls tc ss st)).data.map (fun d => d.content))
      = some [{ type := "text", text := some T }] ∧
    ((convertGeminiToAnthropic (c2Response T gid gobj gcr gmodel grole gidx gdelta gusage)
        (c2Request M T mt tmp tp sys tls tc ss st)).data.map (fun d => d.stop_reason))
      = some AnthropicStopReason.end_turn ∧
    ((convertGeminiToAnthropic (c2Response T gid gobj gcr gmodel grole gidx gdelta gusage)
        (c2Request M T mt tmp tp sys tls tc ss st)).data.map (fun d => d.model))
      = some (some M) := by
  by_cases hT : T = "" <;>
    simp [convertGeminiToAnthropic, c2Response, c2Request, extractChoiceContent,
      mapFinishReason, mkSuccess, hT]

/-- C2 witness: the round trip at `M = "claude-3-opus"`, `T = "Hello"`. -/
theorem C2_plain_text_round_trip_witness :
    (convertGeminiToAnthropic
        (c2Response "Hello" "r1" "chat.completion" 0 "google/gemini-2.5-pro" "assistant" 0 none none)
        (c2Request "claude-3-opus" "Hello" none none none none none none none none)).success = true ∧
    ((convertGeminiToAnthropic
        (c2Response "Hello" "r1" "chat.completion" 0 "google/gemini-2.5-pro" "assistant" 0 none none)
        (c2Request "claude-3-opus" "Hello" none none none none none none none none)).data.map
        (fun d => d.content))
      = some [{ type := "text", text := some "Hello" }] ∧
    ((convertGeminiToAnthropic
        (c2Response "Hello" "r1" "chat.completion" 0 "google/gemini-2.5-pro" "assistant" 0 none none)
        (c2Request "claude-3-opus" "Hello" none none none none none none none none)).data.map
        (fun d => d.stop_reason))
      = some AnthropicStopReason.end_turn ∧
    ((convertGeminiToAnthropic
        (c2Response "Hello" "r1" "chat.completion" 0 "google/gemini-2.5-pro" "assistant" 0 none none)
        (c2Request "claude-3-opus" "Hello" none none none none none none none none)).data.map
        (fun d => d.model))
      = some (some "claude-3-opus") :=
  C2_plain_text_round_trip "claude-3-opus" "Hello" none none none none none none none none
    "r1" "chat.completion" 0 "google/gemini-2.5-pro" "assistant" 0 none none
    (by decide) (by rfl)

/-- C3: feeding the stream translator two content chunks with non-empty text,
then a finish-reason-only chunk, then the `[DONE]` terminator yields exactly
two text `content_block_delta` events at block index 0, one `message_stop`
from the finish reason, and one more `message_stop` from the terminator, in
this order. -/
theorem C3_stream_event_order
    (t1 t2 fr : String) (ht1 : t1 ≠ "") (ht2 : t2 ≠ "") (hfr : fr ≠ "")
    (req : AnthropicRequest)
    (id1 id2 id3 ob1 ob2 ob3 md1 md2 md3 : String) (cr1 cr2 cr3 : Nat)
    (ix1 ix2 ix3 : Nat) (m1 m2 m3 : Option GeminiRespMessage)
    (dr1 dr2 : Option String) (tcs1 tcs2 : Option (List GeminiToolCall))
    (fr1 fr2 : Option String) :
    processGeminiStream req
      [[StreamLine.chunk (c3ContentChunk id1 ob1 md1 cr1 ix1 m1 dr1 t1 tcs1 fr1),
        StreamLine.chunk (c3ContentChunk id2 ob2 md2 cr2 ix2 m2 dr2 t2 tcs2 fr2),
        StreamLine.chunk (c3FinishChunk id3 ob3 md3 cr3 ix3 m3 fr),
        StreamLine.done]]
    = [{ type := "content_block_delta", index := some 0
         delta := some { type := "text_delta", text := some t1 } },
       { type := "content_block_delta", index := some 0
         delta := some { type := "text_delta", text := some t2 } },
       { type := "message_stop" },
       { type := "message_stop" }] := by
  simp [processGeminiStream, processLines, convertGeminiStreamChunk,
    c3ContentChunk, c3FinishChunk, ht1, ht2, hfr]

/-- C3 witness: the four-event order at concrete texts "Hel" and "lo". -/
theorem C3_stream_event_order_witness :
    processGeminiStream fixtureRequest
      [[StreamLine.chunk (c3ContentChunk "c1" "chat.completion.chunk" "g" 0 0 none none "Hel" none none),
        StreamLine.chunk (c3ContentChunk "c2" "chat.completion.chunk" "g" 0 0 none none "lo" none none),
        StreamLine.chunk (c3FinishChunk "c3" "chat.completion.chunk" "g" 0 0 none "stop"),
        StreamLine.done]]
    = [{ type := "content_block_delta", index := some 0
         delta := some { type := "text_delta", text := some "Hel" } },
       { type := "content_block_delta", index := some 0
         delta := some { type := "text_delta", text := some "lo" } },
       { type := "message_stop" },
       { type := "message_stop" }] :=
  C3_stream_event_order "Hel" "lo" "stop" (by decide) (by decide) (by decide)
    fixtureRequest "c1" "c2" "c3" "chat.completion.chunk" "chat.completion.chunk"
    "chat.completion.chunk" "g" "g" "g" 0 0 0 0 0 0 none none none none none none none
    none none

/-- C4 counterexample: the `break` on `data: [DONE]` leaves only the inner
line loop, so a well-formed chunk delivered by a later `reader.read()` batch
still produces an event after the terminator's `message_stop`. -/
theorem C4_no_events_after_done_counterexample :
    processGeminiStream fixtureRequest [[StreamLine.done], [StreamLine.chunk c4LateChunk]]
    = [{ type := "message_stop" },
       { type := "content_block_delta", index := some 0
         delta := some { type := "text_delta", text := some "Hello" } }] := rfl

/-- C4 amended: on the terminator line the translator emits one
`message_stop` and stops processing the remaining lines of the same read
batch, but the read loop itself continues: subsequent batches are still
processed and can still produce events. -/
theorem C4_done_breaks_line_loop (req : AnthropicRequest) (rest : List StreamLine)
    (reads : List (List StreamLine)) :
    processGeminiStream req ((StreamLine.done :: rest) :: reads)
    = { type := "message_stop" } :: processGeminiStream req reads := by
  simp [processGeminiStream, processLines]

/-- C5: `getGeminiModel` is total and returns one of the three tiers: every
table key maps to its table value; off the table, the lower-cased identifier
is tested for `opus`, then `sonnet`, then `haiku`, in that order; anything
else (the empty string included) gets the balanced tier. -/
theorem C5_model_mapping_total :
    (∀ s v, MODEL_MAPPING.lookup s = some v → getGeminiModel s = v) ∧
    (∀ s, MODEL_MAPPING.lookup s = none →
      (jsIncludes (jsToLower s) "opus" = true → getGeminiModel s = "google/gemini-2.5-pro") ∧
      (jsIncludes (jsToLower s) "opus" = false → jsIncludes (jsToLower s) "sonnet" = true →
        getGeminiModel s = "google/gemini-2.5-flash") ∧
      (jsIncludes (jsToLower s) "opus" = false → jsIncludes (jsToLower s) "sonnet" = false →
        jsIncludes (jsToLower s) "haiku" = true →
        getGeminiModel s = "google/gemini-2.5-flash-lite") ∧
      (jsIncludes (jsToLower s) "opus" = false → jsIncludes (jsToLower s) "sonnet" = false →
        jsIncludes (jsToLower s) "haiku" = false →
        getGeminiModel s = "google/gemini-2.5-flash")) ∧
    (∀ s, getGeminiModel s = "google/gemini-2.5-pro" ∨
      getGeminiModel s = "google/gemini-2.5-flash" ∨
      getGeminiModel s = "google/gemini-2.5-flash-lite") := by
  refine ⟨fun s v h => by simp [getGeminiModel, h], fun s h => ?_, fun s => ?_⟩
  · refine ⟨fun h1 => ?_, fun h1 h2 => ?_, fun h1 h2 h3 => ?_, fun h1 h2 h3 => ?_⟩
    · simp [getGeminiModel, h, h1]
    · simp [getGeminiModel, h, h1, h2]
    · simp [getGeminiModel, h, h1, h2, h3]
    · simp [getGeminiModel, h, h1, h2, h3]
  · unfold getGeminiModel
    cases h : MODEL_MAPPING.lookup s with
    | some v =>
      have hm := lookup_mem_values MODEL_MAPPING s v h
      simp [ MODEL_MAPPING] at hm
      rcases hm with h' | h' | h' | h' <;> simp [h']
    | none =>
      by_cases h1 : jsIncludes (jsToLower s) "opus" <;>
        by_cases h2 : jsIncludes (jsToLower s) "sonnet" <;>
          by_cases h3 : jsIncludes (jsToLower s) "haiku" <;>
            simp [h1, h2, h3]

/-- C5 witness: a table key, one identifier per fallback token, and an
unrecognized identifier. -/
theorem C5_model_mapping_total_witness :
    getGeminiModel "claude-3-opus" = "google/gemini-2.5-pro" ∧
    getGeminiModel "my-custom-OPUS" = "google/gemini-2.5-pro" ∧
    getGeminiModel "my-custom-sonnet-x" = "google/gemini-2.5-flash" ∧
    getGeminiModel "my-custom-haiku-x" = "google/gemini-2.5-flash-lite" ∧
    getGeminiModel "mystery-model" = "google/gemini-2.5-flash" :=
  ⟨C5_model_mapping_total.1 "claude-3-opus" "google/gemini-2.5-pro" (by rfl),
   (C5_model_mapping_total.2.1 "my-custom-OPUS" (by rfl)).1 (by rfl),
   (C5_model_mapping_total.2.1 "my-custom-sonnet-x" (by rfl)).2.1 (by rfl) (by rfl),
   (C5_model_mapping_total.2.1 "my-custom-haiku-x" (by rfl)).2.2.1 (by rfl) (by rfl) (by rfl),
   (C5_model_mapping_total.2.1 "mystery-model" (by rfl)).2.2.2 (by rfl) (by rfl) (by rfl)⟩

/-- C6: `validateAnthropicRequest` fails exactly on a falsy model, then a
missing or non-array messages field, then an empty messages array, in that
order with the three exact error strings, and succeeds on every request
with a truthy model and a non-empty messages array. -/
theorem C6_validate_checks :
    (∀ r : AnthropicRequest, strTruthy r.model = false →
      validateAnthropicRequest r = mkFailure "Missing required field: model") ∧
    (∀ r : AnthropicRequest, strTruthy r.model = true →
      (r.messages = MessagesField.missing ∨ r.messages = MessagesField.notArray) →
      validateAnthropicRequest r = mkFailure "Missing or invalid messages field") ∧
    (∀ r : AnthropicRequest, strTruthy r.model = true →
      r.messages = MessagesField.array [] →
      validateAnthropicRequest r = mkFailure "Messages array cannot be empty") ∧
    (∀ (r : AnthropicRequest) (msgs : List AnthropicMessage), strTruthy r.model = true →
      r.messages = MessagesField.array msgs → msgs ≠ [] →
      validateAnthropicRequest r = { success := true }) := by
  refine ⟨fun r h => ?_, fun r h hm => ?_, fun r h hm => ?_, fun r msgs h hm hne => ?_⟩
  · simp [validateAnthropicRequest, h]
  · rcases hm with hm | hm <;> simp [validateAnthropicRequest, h, hm]
  · simp [validateAnthropicRequest, h, hm]
  · simp [validateAnthropicRequest, h, hm, hne]

/-- C6 witness: one request per branch (absent model, missing messages,
empty messages, and a valid request). -/
theorem C6_validate_checks_witness :
    validateAnthropicRequest { model := none, messages := MessagesField.array [] }
      = mkFailure "Missing required field: model" ∧
    validateAnthropicRequest { model := some "claude-3-sonnet", messages := MessagesField.missing }
      = mkFailure "Missing or invalid messages field" ∧
    validateAnthropicRequest { model := some "claude-3-sonnet", messages := MessagesField.array [] }
      = mkFailure "Messages array cannot be empty" ∧
    validateAnthropicRequest fixtureRequest = { success := true } :=
  ⟨C6_validate_checks.1 _ (by rfl),
   C6_validate_checks.2.1 _ (by rfl) (Or.inl rfl),
   C6_validate_checks.2.2.1 _ (by rfl) rfl,
   C6_validate_checks.2.2.2 fixtureRequest
     [{ role := "user", content := AnthropicMessageContent.str "Hello" }]
     (by rfl) rfl (List.cons_ne_nil _ _)⟩

/-- C7: a message whose flattened content trims to empty is dropped
(`convertAnthropicMessage` returns `null`), and translating the two-message
request whose second message flattens to empty yields a target request with
exactly one message. -/
theorem C7_empty_message_dropped :
    (∀ (msg : AnthropicMessage) (index : Nat),
      jsTrim (flattenAnthropicContent msg.content) = "" →
      convertAnthropicMessage msg index = none) ∧
    ((convertAnthropicToGemini c7Request).data.map (fun d => d.messages))
      = some [{ role := "user", content := "Hello!" }] :=
  ⟨fun msg index h => by simp [convertAnthropicMessage, h], rfl⟩

/-- C7 witness: an image-only block sequence flattens to empty and the
message is dropped. -/
theorem C7_empty_message_dropped_witness :
    convertAnthropicMessage
      { role := "user", content := AnthropicMessageContent.blocks [{ type := "image" }] } 1
      = none :=
  C7_empty_message_dropped.1
    { role := "user", content := AnthropicMessageContent.blocks [{ type := "image" }] } 1 rfl

/-- C8: `convertAnthropicToolChoice` maps `auto` and `any` to `auto`, a named
tool choice to the corresponding function choice, and an absent choice to no
value; and a translated request with no `tool_choice` has no `tool_choice`
field in the target request. -/
theorem C8_tool_choice_mapping :
    convertAnthropicToolChoice (some AnthropicToolChoice.auto) = some GeminiToolChoice.auto ∧
    convertAnthropicToolChoice (some AnthropicToolChoice.any) = some GeminiToolChoice.auto ∧
    (∀ n : String, n ≠ "" →
      convertAnthropicToolChoice (some (AnthropicToolChoice.tool n))
        = some (GeminiToolChoice.function n)) ∧
    convertAnthropicToolChoice none = none ∧
    (∀ (r : AnthropicRequest) (d : GeminiRequest), r.tool_choice = none →
      (convertAnthropicToGemini r).data = some d → d.tool_choice = none) := by
  refine ⟨rfl, rfl, fun n hn => by simp [convertAnthropicToolChoice, hn], rfl,
    fun r d h hd => ?_⟩
  rcases hr : r.model with _ | m <;> rcases hm : r.messages with _ | _ | msgs <;>
    simp [convertAnthropicToGemini, hr, hm, mkSuccess, mkFailure] at hd
  rw [← hd, (addTools_fields _ _ _).2.2.2 h]

/-- C8 witness: the named-tool mapping at "calculator", and the request with
one tool and no choice whose translation has no `tool_choice`. -/
theorem C8_tool_choice_mapping_witness :
    convertAnthropicToolChoice (some (AnthropicToolChoice.tool "calculator"))
      = some (GeminiToolChoice.function "calculator") ∧
    c8Data.tool_choice = none :=
  ⟨C8_tool_choice_mapping.2.2.1 "calculator" (by decide),
   C8_tool_choice_mapping.2.2.2.2 c8Request c8Data rfl (by rfl)⟩

/-- C9: a `data:` line whose payload is not valid JSON produces no event,
does not terminate the stream, and leaves every other line's derived events
unchanged, wherever in the stream it occurs. -/
theorem C9_malformed_chunk_swallowed (req : AnthropicRequest)
    (reads1 reads2 : List (List StreamLine)) (pre suf : List StreamLine) :
    processGeminiStream req (reads1 ++ (pre ++ StreamLine.malformed :: suf) :: reads2)
    = processGeminiStream req (reads1 ++ (pre ++ suf) :: reads2) := by
  simp [processGeminiStream, processLines_malformed]

/-- C10: an explicit `max_tokens: 0` is replaced by the default 1024, while
an explicit `temperature` (0 included) is preserved and only an absent
temperature becomes the default 0.7. -/
theorem C10_zero_defaults_asymmetry :
    (∀ (r : AnthropicRequest) (d : GeminiRequest), r.max_tokens = some 0 →
      (convertAnthropicToGemini r).data = some d → d.max_tokens = 1024) ∧
    (∀ (r : AnthropicRequest) (d : GeminiRequest) (q : Rat), r.temperature = some q →
      (convertAnthropicToGemini r).data = some d → d.temperature = q) ∧
    (∀ (r : AnthropicRequest) (d : GeminiRequest), r.temperature = none →
      (convertAnthropicToGemini r).data = some d → d.temperature = 7 / 10) := by
  refine ⟨fun r d h hd => ?_, fun r d q h hd => ?_, fun r d h hd => ?_⟩ <;>
  · rcases hr : r.model with _ | m <;> rcases hm : r.messages with _ | _ | msgs <;>
      simp [convertAnthropicToGemini, hr, hm, mkSuccess, mkFailure] at hd
    rw [← hd]
    simp [(addTools_fields _ _ _).1, (addTools_fields _ _ _).2.1, h]

/-- C10 witness: a request with `max_tokens: 0` and `temperature: 0`, and
its variant with no temperature. -/
theorem C10_zero_defaults_asymmetry_witness :
    c10Data.max_tokens = 1024 ∧ c10Data.temperature = 0 ∧ c10DataB.temperature = 7 / 10 :=
  ⟨C10_zero_defaults_asymmetry.1 c10Request c10Data rfl (by rfl),
   C10_zero_defaults_asymmetry.2.1 c10Request c10Data 0 rfl (by rfl),
   C10_zero_defaults_asymmetry.2.2 c10RequestB c10DataB rfl (by rfl)⟩
